import Mathlib

/-!
Verification development for the `au_transcripts` repository: a shallow
embedding, in Lean 4, of the CSV wide-to-long reshaper, the composite-key
upsert client, the two sync drivers, the transcript double-column splitter
and the R2 batch-archive assembler, together with theorems settling the
frozen specification claims against this embedding.

Python cell values are modelled by `Value` (strings and integers; a missing
value / pandas NaN is `Option.none` at the `Cell` level).  Floating point
does not appear on the paths covered by the claims (registration numbers
are strings, marks and years integers), so numbers are modelled as `Int`.
Remote HTTP interactions are modelled by explicit outcome environments: each
result of each call (an exception, or a status code with an optional parsed body)
is an input, and the functions record the calls they issue so that theorems
can speak about what was sent to the store.
-/

namespace AuTranscripts

/-! ### Kernel-reducible string primitives

The Lean core versions of several `String` operations are defined by
well-founded recursion and do not reduce inside the kernel, so the exact
Python string operations used by the source are re-expressed here through
structural recursion over the character list of the string.  Each helper
states in its doc comment the Python operation it implements. -/

/-- Python `s.startswith(p)`. -/
def strStartsWith (s p : String) : Bool := p.data.isPrefixOf s.data

/-- Python `s.endswith(p)`. -/
def strEndsWith (s p : String) : Bool := p.data.isSuffixOf s.data

/-- Python `ch in s` for a single character. -/
def strContainsChar (s : String) (ch : Char) : Bool := s.data.contains ch

/-- Python slicing `s[n:]`. -/
def strDrop (s : String) (n : Nat) : String := String.mk (s.data.drop n)

/-- Python slicing `s[:-n]` (drop the last `n` characters). -/
def strDropRight (s : String) (n : Nat) : String :=
  String.mk (s.data.take (s.data.length - n))

/-- The last `n` characters of `s`. -/
def strTakeRight (s : String) (n : Nat) : String :=
  String.mk (s.data.drop (s.data.length - n))

def splitOnCharAux (sep : Char) : List Char → List Char → List (List Char)
  | [], acc => [acc.reverse]
  | ch :: rest, acc =>
    if ch = sep then acc.reverse :: splitOnCharAux sep rest []
    else splitOnCharAux sep rest (ch :: acc)

/-- Python `s.split(sep)` for a one-character separator: always at least
one part, empty parts kept between consecutive separators. -/
def strSplitOnChar (sep : Char) (s : String) : List String :=
  (splitOnCharAux sep s.data []).map String.mk

/-- Python `sep.join(parts)`. -/
def strJoinWith (sep : String) : List String → String
  | [] => ""
  | [x] => x
  | x :: xs => x ++ sep ++ strJoinWith sep xs

/-- A scalar cell value of the uploaded CSV / of a record sent to NocoDB. -/
inductive Value where
  | vStr (s : String)
  | vInt (n : Int)
deriving DecidableEq, Repr

/-- Python `str(value)`: identity on strings, decimal rendering on ints. -/
def pyStr : Value → String
  | .vStr s => s
  | .vInt n => toString n

/-- Python `int(value)` on the values that reach it (YEAR_FLAG is always an
int by the time the coercion runs; the string branch parses, defaulting to 0
on the unreachable non-numeric case). -/
def pyInt : Value → Value
  | .vInt n => .vInt n
  | .vStr s => .vInt ((s.toInt?).getD 0)

/-- A dataframe cell: `none` is pandas NaN / a missing column. -/
abbrev Cell := Option Value

/-- A long-format dataframe row, as an association list keyed by column name
(pandas column labels; insertion order preserved as Python dicts do). -/
abbrev LongRow := List (String × Cell)

/-- A record as sent to the store: `row.dropna().to_dict()`, so no NaN. -/
abbrev Record := List (String × Value)

/-- Python dict assignment `d[k] = v`: replace the value in place if the key
exists, else append the new key at the end (dict insertion order). -/
def setField : Record → String → Value → Record
  | [], k, v => [(k, v)]
  | (k', v') :: r, k, v =>
    if k' = k then (k, v) :: r else (k', v') :: setField r k v

/-- Model of `row.dropna().to_dict()` (app.py line 214 / 434): drop NaN cells. -/
def dropnaRow (row : LongRow) : Record :=
  row.filterMap (fun p => p.2.map (fun v => (p.1, v)))

/-! ## Wide-to-long reshaper (app.py, `process_and_sync`, lines 104-201)

The input is a rectangular table: a list of column names and rows of cells
positionally aligned with it. -/

/-- The uploaded wide dataframe. -/
structure Table where
  cols : List String
  rows : List (List Cell)
deriving Repr

/-- Cell of row `r` at the column named `c` (first occurrence); a column that
is not present reads as NaN, which models the all-NaN fill that
`pd.wide_to_long` produces for a declared stub with no matching columns. -/
def lookupCell (cols : List String) (r : List Cell) (c : String) : Cell :=
  ((cols.zip r).lookup c).getD none

/-- Step 1 column renaming (app.py lines 104-118).  The Python guard
`col not in new_columns` is always true because dataframe column labels are
unique, so it is not modelled. -/
def renameCol (c : String) : String :=
  if strStartsWith c "SUB" && strContainsChar c '_' then
    match strSplitOnChar '_' c with
    | [] => c
    | p0 :: rest => strJoinWith "_" rest ++ "_" ++ strDrop p0 3
  else if strStartsWith c "SUB" && decide (c.data.length > 3)
      && (strDrop c 3).data.all Char.isDigit then
    "SUBJECT_ACTUAL_CODE_" ++ strDrop c 3
  else if strStartsWith c "SUB" && strEndsWith c "NM"
      && decide (c.data.length > 3)
      && ((c.data.get? 3).map Char.isDigit).getD false then
    "SUBJECT_NAME_" ++ strDropRight (strDrop c 3) 2
  else c

/-- Length of the maximal run of decimal digits ending the string. -/
def digitSuffixLen (c : String) : Nat :=
  (c.data.reverse.takeWhile Char.isDigit).length

/-- The regex `_\d+$` of app.py line 129: the name ends in one or more
digits immediately preceded by an underscore. -/
def hasNumSuffix (c : String) : Bool :=
  decide (0 < digitSuffixLen c)
    && strEndsWith (strDropRight c (digitSuffixLen c)) "_"

/-- Step 2 (app.py lines 128-131): identifier columns are the renamed columns
without a numeric suffix, with `REGN_NO` forced in front when absent. -/
def idVars0 (renamed : List String) : List String :=
  let iv := renamed.filter (fun c => !hasNumSuffix c)
  if iv.contains "REGN_NO" then iv else "REGN_NO" :: iv

/-- Step 3 (app.py lines 133-138): the declared metric stub names. -/
def stubnames : List String :=
  ["SUBJECT_NAME", "TH_MRKS", "CE_MRKS", "TOT", "GRADE",
   "GRADE_POINTS", "CREDIT", "CREDIT_POINTS", "TYPE", "RESULT",
   "SUBJECT_ACTUAL_CODE", "MONTH_YEAR_COMPLETION", "YEAR_COMPLETION",
   "MONTH_COMPLETION_IN_NUMBER"]

/-- Step 4 (app.py lines 140-147): an identifier column whose name collides
with a stub name is temporarily suffixed with `_GLOBAL`. -/
def globalize (idv : List String) (c : String) : String :=
  if idv.contains c && stubnames.contains c then c ++ "_GLOBAL" else c

def renamedCols (t : Table) : List String := t.cols.map renameCol

def finalCols (t : Table) : List String :=
  (renamedCols t).map (globalize (idVars0 (renamedCols t)))

def idVarsF (t : Table) : List String :=
  (idVars0 (renamedCols t)).map (globalize (idVars0 (renamedCols t)))

/-- Decompose a column name as `stub ++ "_" ++ digits` for a declared stub
(the pattern `^stub_\d+$` that `pd.wide_to_long` matches per stub; since the
digit block cannot contain an underscore the decomposition is unique). -/
def stubMatch (c : String) : Option (String × String) :=
  let n := digitSuffixLen c
  if n = 0 then none
  else
    let pre := strDropRight c n
    if strEndsWith pre "_" then
      let stub := strDropRight pre 1
      if stubnames.contains stub then some (stub, strTakeRight c n) else none
    else none

/-- The distinct subject-position suffixes found among the stub-matching
columns (`pd.wide_to_long` takes the union over stubs; it parses the suffix
as an int — faithful for canonical, no-leading-zero suffixes). -/
def tableSuffixes (t : Table) : List String :=
  ((finalCols t).filterMap (fun c => (stubMatch c).map Prod.snd)).dedup

/-- Columns that neither serve as identifiers nor match a stub pattern;
pandas carries them through the pivot, replicated per produced row. -/
def passthroughCols (t : Table) : List String :=
  (finalCols t).filter
    (fun c => !(idVarsF t).contains c && (stubMatch c).isNone)

/-- One pivoted row for input row `r` and subject-position suffix `s`:
identifier fields, passthrough fields, then one field per declared stub read
from the column `stub_s` (NaN when that column does not exist).  The
positional `Subject_Number` column `j` is dropped immediately after the
pivot (app.py line 171) and is therefore not materialised. -/
def mkLongRow (t : Table) (r : List Cell) (s : String) : LongRow :=
  (idVarsF t).map (fun c => (c, lookupCell (finalCols t) r c))
    ++ (passthroughCols t).map (fun c => (c, lookupCell (finalCols t) r c))
    ++ stubnames.map (fun st => (st, lookupCell (finalCols t) r (st ++ "_" ++ s)))

/-- Step 6 renames (app.py lines 175-182). -/
def renamePost (c : String) : String :=
  if c = "TOT" then "Marks"
  else if c = "GRADE" then "Grade"
  else if c = "SUBJECT_ACTUAL_CODE" then "SUBJECT_CODE"
  else if c = "MONTH_YEAR_COMPLETION" then "Month_Year_Completion"
  else if c = "YEAR_COMPLETION" then "Academic_Year"
  else if c = "MONTH_COMPLETION_IN_NUMBER" then "Academic_Month"
  else c

/-- Reversal of the temporary `_GLOBAL` rename (app.py lines 184-185): a
column reads back as `x` exactly when it is `x ++ "_GLOBAL"` for some
identifier `x` that collided with a stub name. -/
def unGlobal (idv : List String) (c : String) : String :=
  match idv.find? (fun x => stubnames.contains x && c == x ++ "_GLOBAL") with
  | some x => x
  | none => c

/-- The final column name of a pivoted field: the post-pivot business rename
(line 175) followed by the reversal of the temporary rename (line 185). -/
def finalizeName (t : Table) (c : String) : String :=
  unGlobal (idVars0 (renamedCols t)) (renamePost c)

/-- All pivoted rows with their final field names, one per
(input row, detected suffix) pair, before the missing-subject clean-up. -/
def longRows (t : Table) : List LongRow :=
  t.rows.flatMap (fun r =>
    (tableSuffixes t).map (fun s =>
      (mkLongRow t r s).map (fun p => (finalizeName t p.1, p.2))))

/-- Field of a long row by final column name (NaN when absent). -/
def rowField (r : LongRow) (k : String) : Cell := (r.lookup k).getD none

/-- The clean-up predicate of app.py line 188:
the dropna on the SUBJECT_NAME and SUBJECT_CODE subset with `how=all` keeps a row iff
at least one of the two fields is non-null. -/
def keepRow (r : LongRow) : Bool :=
  (rowField r "SUBJECT_NAME").isSome || (rowField r "SUBJECT_CODE").isSome

def cleanedLongRows (t : Table) : List LongRow :=
  (longRows t).filter keepRow

/-- The identifier tuple of a row (pandas requires these to uniquely
identify rows, raising `ValueError` otherwise). -/
def idTuple (t : Table) (r : List Cell) : List Cell :=
  (idVarsF t).map (lookupCell (finalCols t) r)

/-- Steps 1-6 of `process_and_sync`: `none` models the guarded error exit of
app.py lines 159-161 (the `try`/`except` around `pd.wide_to_long`): no
stub-matching column at all, a forced identifier column that does not exist
(`KeyError`), duplicate column labels after renaming, or identifier tuples
that do not uniquely identify rows all make the pivot fail instead of
producing rows. -/
def reshapeCleaned (t : Table) : Option (List LongRow) :=
  if (tableSuffixes t).isEmpty then none
  else if !(idVarsF t).all ((finalCols t).contains ·) then none
  else if !(finalCols t).Nodup then none
  else if !(t.rows.map (idTuple t)).Nodup then none
  else some (cleanedLongRows t)

/-! ## Composite-key upsert client, course-details variant
(app.py, `update_or_create`, lines 40-89)

The remote store is an external service; the outcome of each HTTP call is an
input.  `GetResult.resp status body` is an HTTP response with the given
status code; `body = none` means `response.json()` raises (non-JSON body),
`body = some b` carries the parsed `list` of matched rows, of which only
the Id field is ever read (`record_list[0]` subscripted at Id). -/

/-- Parsed body of a successful lookup: the `Id`s of the rows in `list`. -/
structure GetBody where
  list : List Nat
deriving DecidableEq, Repr

inductive GetResult where
  | raised
  | resp (status : Nat) (body : Option GetBody)
deriving DecidableEq, Repr

inductive WriteResult where
  | raised
  | resp (status : Nat)
deriving DecidableEq, Repr

/-- The outcomes the remote store will produce for the (at most) one GET
and one PATCH/POST this upsert performs. -/
structure UpsertEnv where
  getRes : GetResult
  writeRes : WriteResult
deriving DecidableEq, Repr

/-- A call issued to the store, with the payload that was sent. -/
inductive StoreCall where
  | get (filterStr : String)
  | patch (id : Nat) (rec : Record)
  | post (rec : Record)
deriving DecidableEq, Repr

def StoreCall.isPost : StoreCall → Bool
  | .post _ => true
  | _ => false

/-- Return value and issued calls of one course-details upsert. -/
structure UpsertOutcome where
  success : Bool
  calls : List StoreCall
deriving DecidableEq, Repr

/-- app.py lines 51-52: registration number and subject code are coerced to
their string form before entering the equality filter. -/
def coerceKey (k : String) (v : Value) : Value :=
  if k = "REGN_NO" || k = "SUBJECT_CODE" then .vStr (pyStr v) else v

/-- One `` `key`,eq,value `` equality predicate of the filter
(the f-string of app.py line 54; the URL percent-encoding of line 57 is
transport-level and not modelled). -/
def filterPart (k : String) (v : Value) : String :=
  "`" ++ k ++ "`,eq," ++ pyStr (coerceKey k v)

/-- app.py lines 44-54: build the per-key equality predicates, failing with
`none` at the first unique-key field that is missing (None) in the record. -/
def buildFilterParts (keys : List String) (rec : Record) : Option (List String) :=
  match keys with
  | [] => some []
  | k :: ks =>
    match rec.lookup k with
    | none => none
    | some v => (buildFilterParts ks rec).map (fun ps => filterPart k v :: ps)

/-- Python `res.ok`: status code below 400. -/
def httpOk (status : Nat) : Bool := status < 400

/-- The `update_or_create` of the course-details page (app.py lines 40-89).  A
missing key field returns `False` before any HTTP call; every HTTP error —
a raised exception on GET, a non-JSON 200 body, a raised exception on the
write, or a non-ok write status — is caught by the single `try`/`except`
and yields `False`; a 200 lookup with a non-empty `list` PATCHes the first
Id of the matched row; otherwise the record is POSTed as a new row. -/
def update_or_create (rec : Record) (uniqueKeys : List String)
    (env : UpsertEnv) : UpsertOutcome :=
  match buildFilterParts uniqueKeys rec with
  | none => ⟨false, []⟩
  | some parts =>
    let rawFilter := strJoinWith ",AND," parts
    let write : StoreCall → UpsertOutcome := fun c =>
      match env.writeRes with
      | .raised => ⟨false, [.get rawFilter, c]⟩
      | .resp s => ⟨httpOk s, [.get rawFilter, c]⟩
    match env.getRes with
    | .raised => ⟨false, [.get rawFilter]⟩
    | .resp status body =>
      if status = 200 then
        match body with
        | none => ⟨false, [.get rawFilter]⟩
        | some b =>
          match b.list with
          | [] => write (.post rec)
          | id0 :: _ => write (.patch id0 rec)
      else write (.post rec)

/-! ## Course-details sync loop (app.py, `process_and_sync`, lines 203-234) -/

def COMPOSITE_UNIQUE_KEYS : List String := ["REGN_NO", "YEAR_FLAG", "SUBJECT_CODE"]

/-- Python `if k in record: record[k] = str(record[k])`. -/
def stringifyField (r : Record) (k : String) : Record :=
  match r.lookup k with
  | some v => setField r k (.vStr (pyStr v))
  | none => r

/-- Python `if k in record: record[k] = int(record[k])`. -/
def intifyField (r : Record) (k : String) : Record :=
  match r.lookup k with
  | some v => setField r k (pyInt v)
  | none => r

/-- Per-row preparation of app.py lines 213-223: drop NaN fields, coerce
`REGN_NO` and `SUBJECT_CODE` to strings and `YEAR_FLAG` to int when present. -/
def prepareCourseRecord (row : LongRow) : Record :=
  intifyField
    (stringifyField (stringifyField (dropnaRow row) "REGN_NO") "SUBJECT_CODE")
    "YEAR_FLAG"

/-- The success/failure tallies of the course-details batch loop
(app.py lines 210-228): every row gets exactly one verdict from
`update_or_create` and the loop never raises. -/
def processCourseLoop : List (LongRow × UpsertEnv) → Nat × Nat
  | [] => (0, 0)
  | (row, env) :: rest =>
    let counts := processCourseLoop rest
    if (update_or_create (prepareCourseRecord row) COMPOSITE_UNIQUE_KEYS env).success
    then (counts.1 + 1, counts.2)
    else (counts.1, counts.2 + 1)

/-! ## Student-details sync (app.py, lines 337-447)

The student-details page defines its own `update_or_create`.  Unlike the
course variant, only the lookup GET sits inside a `try` (lines 361-365);
the PATCH/POST of lines 378-385 is not guarded, so an exception raised
there propagates to the caller.  The function returns `None` in all
non-raising cases and nothing is tallied by its batch loop. -/

def STUDENT_UNIQUE_KEYS : List String := ["REGN_NO", "YEAR_FLAG"]

/-- app.py lines 351-352: only `REGN_NO` is coerced in the student filter. -/
def coerceKeyStudent (k : String) (v : Value) : Value :=
  if k = "REGN_NO" then .vStr (pyStr v) else v

def filterPartStudent (k : String) (v : Value) : String :=
  "`" ++ k ++ "`,eq," ++ pyStr (coerceKeyStudent k v)

/-- app.py lines 344-354: early `return` at the first missing key field. -/
def buildFilterPartsStudent (keys : List String) (rec : Record) :
    Option (List String) :=
  match keys with
  | [] => some []
  | k :: ks =>
    match rec.lookup k with
    | none => none
    | some v => (buildFilterPartsStudent ks rec).map (fun ps => filterPartStudent k v :: ps)

/-- How one student-details upsert ends: a normal return (the function
always returns `None`), or an exception propagating out of the unguarded
PATCH/POST call. -/
inductive StudentOutcome where
  | returned (calls : List StoreCall)
  | propagated (calls : List StoreCall)
deriving DecidableEq, Repr

/-- The `update_or_create` of the student-details page (app.py lines 339-388).
A raised GET is caught (lines 363-365) and the function returns; a non-JSON
200 body is caught at lines 375-376, leaving `record_id = None`, and the
flow falls through to the create branch; an exception raised by the
PATCH/POST propagates. -/
def update_or_create_student (rec : Record) (uniqueKeys : List String)
    (env : UpsertEnv) : StudentOutcome :=
  match buildFilterPartsStudent uniqueKeys rec with
  | none => .returned []
  | some parts =>
    let rawFilter := strJoinWith ",AND," parts
    match env.getRes with
    | .raised => .returned [.get rawFilter]
    | .resp status body =>
      let recordId : Option Nat :=
        if status = 200 then
          match body with
          | none => none
          | some b => b.list.head?
        else none
      let writeCall : StoreCall :=
        match recordId with
        | some id0 => .patch id0 rec
        | none => .post rec
      match env.writeRes with
      | .raised => .propagated [.get rawFilter, writeCall]
      | .resp _ => .returned [.get rawFilter, writeCall]

/-- Per-row preparation of app.py lines 433-441: drop NaN fields, coerce
`REGN_NO` to its string form (the `isinstance(..., float)` branch converts
a float like `2021.0` through `int` first; numbers are ints here) and
`YEAR_FLAG` to int. -/
def prepareStudentRecord (row : LongRow) : Record :=
  intifyField (stringifyField (dropnaRow row) "REGN_NO") "YEAR_FLAG"

/-- Result of the student-details batch loop (app.py lines 427-444): either
every row was processed, or an exception propagated out of row number
`done` (0-based), leaving `remaining` rows unprocessed. -/
inductive LoopResult where
  | completed (n : Nat)
  | aborted (done remaining : Nat)
deriving DecidableEq, Repr

/-- The student-details batch loop: there is no `try` around the body, so a
propagating upsert aborts the loop. -/
def processStudentLoop : List (LongRow × UpsertEnv) → LoopResult
  | [] => .completed 0
  | (row, env) :: rest =>
    match update_or_create_student (prepareStudentRecord row) STUDENT_UNIQUE_KEYS env with
    | .propagated _ => .aborted 0 rest.length
    | .returned _ =>
      match processStudentLoop rest with
      | .completed n => .completed (n + 1)
      | .aborted d m => .aborted (d + 1) m

/-! ## Transcript student fetch (generate_transcript.py line 33,
called from app.py lines 879-885)

`fetch_all_students_details(conn, specific_regn_no=None)` accepts exactly
these parameters, while the Transcript Generator page calls it with the
keyword arguments `specific_regn_no`, `year_of_completion` and
`academic_course_id`.  Python raises `TypeError` when a keyword argument
does not name a declared parameter; the binding check is modelled here. -/

def fetch_all_students_details_params : List String :=
  ["conn", "specific_regn_no"]

def transcript_page_call_kwargs : List String :=
  ["specific_regn_no", "year_of_completion", "academic_course_id"]

/-- A Python call binds (does not raise `TypeError`) only if every keyword
argument names a declared parameter. -/
def acceptsKwargs (params kwargs : List String) : Bool :=
  kwargs.all (params.contains ·)

/-! ## Transcript double-column split
(generate_transcript.py, `prepare_double_column_courses`, lines 139-150) -/

/-- The in-place numbering of lines 141-142: the sl_no field of course number
`i` (0-based) is set to `i + 1`. -/
def numberCourses (courses : List Record) : List Record :=
  courses.enum.map (fun p => setField p.2 "sl_no" (.vInt (p.1 + 1)))

/-- Model of `prepare_double_column_courses`: number the courses, then split at
`(total + 1) // 2` into the left and right columns. -/
def prepare_double_column_courses (courses : List Record) :
    List Record × List Record :=
  let numbered := numberCourses courses
  let splitIndex := (numbered.length + 1) / 2
  (numbered.take splitIndex, numbered.drop splitIndex)

/-! ## Batch archive download (r2/helper.py, `download_batch_as_zip`,
lines 256-307)

The object store is external: the environment carries the latest batch
folder name (`get_latest_batch_folder`, `None` when no folder exists) and
the listing of the batch prefix as (key, retrievable content) pairs, the
content being `none` when `get_file_content` returns no data. -/

structure R2Env where
  latestBatch : Option String
  files : List (String × Option String)
deriving DecidableEq, Repr

/-- Last slash-separated component of the key (helper.py line 294). -/
def keyBasename (k : String) : String := (strSplitOnChar '/' k).getLastD k

/-- The ZIP member list assembled by the loop of helper.py lines 291-299: a
listed object whose content retrieval returns no data is silently omitted. -/
def zipEntries (files : List (String × Option String)) :
    List (String × String) :=
  files.filterMap (fun f => f.2.map (fun content => (keyBasename f.1, content)))

/-- Model of `download_batch_as_zip`: resolve the batch folder (the given timestamp,
else the latest; a missing or empty one yields `(None, "", 0)`), then list
the batch — an empty listing yields `(None, ts, 0)` — and otherwise return
the assembled archive together with the batch id and `len(files)`. -/
def download_batch_as_zip (env : R2Env) (batchTimestamp : Option String) :
    Option (List (String × String)) × String × Nat :=
  let ts? := match batchTimestamp with
    | some ts => some ts
    | none => env.latestBatch
  match ts? with
  | none => (none, "", 0)
  | some ts =>
    if ts.isEmpty then (none, "", 0)
    else if env.files.isEmpty then (none, ts, 0)
    else (some (zipEntries env.files), ts, env.files.length)

/-! ## Generic helper lemmas -/

theorem length_filter_map_eq_countP {α β : Type} (g : α → β) (p : β → Bool)
    (l : List α) :
    ((l.map g).filter p).length = l.countP (fun a => p (g a)) := by
  induction l with
  | nil => rfl
  | cons a l ih =>
    by_cases h : p (g a) = true
    · simp [List.filter_cons, List.countP_cons, h, ih]
    · simp only [Bool.not_eq_true] at h
      simp [List.filter_cons, List.countP_cons, h, ih]

theorem length_filterMap_eq_countP {α β : Type} (f : α → Option β)
    (l : List α) :
    (l.filterMap f).length = l.countP (fun a => (f a).isSome) := by
  induction l with
  | nil => rfl
  | cons a l ih =>
    cases h : f a <;>
      simp [List.filterMap_cons, List.countP_cons, h, ih]

/-! ## Association-list lemmas for the upsert records -/

theorem lookup_setField_self (r : Record) (k : String) (v : Value) :
    (setField r k v).lookup k = some v := by
  induction r with
  | nil => simp [setField, List.lookup]
  | cons p r ih =>
    obtain ⟨k', v'⟩ := p
    by_cases h : k' = k
    · subst h
      simp [setField, List.lookup]
    · have hb : (k == k') = false := by
        simp only [beq_eq_false_iff_ne, ne_eq]
        exact fun hEq => h hEq.symm
      simp [setField, h, List.lookup, hb, ih]

theorem lookup_setField_ne (r : Record) (k k' : String) (v : Value)
    (h : k' ≠ k) :
    (setField r k' v).lookup k = r.lookup k := by
  have hb : (k == k') = false := by
    simp only [beq_eq_false_iff_ne, ne_eq]
    exact fun hEq => h hEq.symm
  induction r with
  | nil => simp [setField, List.lookup, hb]
  | cons p r ih =>
    obtain ⟨k0, v0⟩ := p
    by_cases h0 : k0 = k'
    · subst h0
      simp [setField, List.lookup, hb]
    · simp [setField, h0, List.lookup, ih]

theorem lookup_stringifyField_self (r : Record) (k : String) :
    (stringifyField r k).lookup k
      = (r.lookup k).map (fun v => Value.vStr (pyStr v)) := by
  cases h : r.lookup k <;> simp [stringifyField, h, lookup_setField_self]

theorem lookup_stringifyField_ne (r : Record) (k k' : String) (h : k' ≠ k) :
    (stringifyField r k').lookup k = r.lookup k := by
  cases hh : r.lookup k' <;> simp [stringifyField, hh, lookup_setField_ne _ _ _ _ h]

theorem lookup_intifyField_ne (r : Record) (k k' : String) (h : k' ≠ k) :
    (intifyField r k').lookup k = r.lookup k := by
  cases hh : r.lookup k' <;> simp [intifyField, hh, lookup_setField_ne _ _ _ _ h]

/-! ## C1 — lookup-then-write behaviour of the course upsert -/

/-- A fully keyed course record. -/
def upsertExampleRecord : Record :=
  [("REGN_NO", .vStr "AU21UG-001"), ("YEAR_FLAG", .vInt 1),
   ("SUBJECT_CODE", .vStr "101")]

/-- A store whose lookup returns two matched rows (Ids 5 and 7). -/
def twoMatchEnv : UpsertEnv := ⟨.resp 200 (some ⟨[5, 7]⟩), .resp 200⟩

/-- C1 counterexample: when the lookup returns MORE than one match the
course upsert does not create a new record — it PATCHes the first matched
Id (here 5), refuting the claim that anything other than exactly one match
leads to a create. -/
theorem upsert_two_matches_updates_first :
    (update_or_create upsertExampleRecord COMPOSITE_UNIQUE_KEYS twoMatchEnv).calls
      = [.get "`REGN_NO`,eq,AU21UG-001,AND,`YEAR_FLAG`,eq,1,AND,`SUBJECT_CODE`,eq,101",
         .patch 5 upsertExampleRecord]
    ∧ ((update_or_create upsertExampleRecord COMPOSITE_UNIQUE_KEYS
          twoMatchEnv).calls.any StoreCall.isPost) = false
    ∧ (update_or_create upsertExampleRecord COMPOSITE_UNIQUE_KEYS
          twoMatchEnv).success = true :=
  ⟨rfl, rfl, rfl⟩

/-- C1 amended: with every key field present, the client issues a GET whose
filter is the `,AND,`-join of the per-key equality predicates, and then —
when the lookup parses with status 200 — PATCHes the FIRST matched Id if
the match list is nonempty (one or many matches alike), and POSTs a new
record when the match list is empty; a non-200 lookup status also leads to
a POST. -/
theorem upsert_course_lookup_then_write (rec : Record) (ks : List String)
    (env : UpsertEnv) (parts : List String) (status : Nat) (b : GetBody)
    (hk : buildFilterParts ks rec = some parts)
    (hg : env.getRes = .resp status (some b)) :
    (update_or_create rec ks env).calls =
      [.get (strJoinWith ",AND," parts),
       if status = 200 ∧ b.list ≠ [] then .patch (b.list.headD 0) rec
       else .post rec] := by
  obtain ⟨g, w⟩ := env
  simp only at hg
  subst hg
  by_cases hs : status = 200
  · subst hs
    cases hl : b.list with
    | nil => cases w <;> simp [update_or_create, hk, hl]
    | cons id0 rest => cases w <;> simp [update_or_create, hk, hl]
  · cases w <;> simp [update_or_create, hk, hs]

/-- A store whose lookup returns exactly one matched row (Id 3). -/
def oneMatchEnv : UpsertEnv := ⟨.resp 200 (some ⟨[3]⟩), .resp 200⟩

/-- C1 amended, witness at a one-match lookup. -/
theorem upsert_course_lookup_then_write_witness :
    (update_or_create upsertExampleRecord COMPOSITE_UNIQUE_KEYS oneMatchEnv).calls
      = [.get (strJoinWith ",AND,"
          ["`REGN_NO`,eq,AU21UG-001", "`YEAR_FLAG`,eq,1",
           "`SUBJECT_CODE`,eq,101"]),
         if (200 : Nat) = 200 ∧ ([3] : List Nat) ≠ [] then
           .patch (([3] : List Nat).headD 0) upsertExampleRecord
         else .post upsertExampleRecord] :=
  upsert_course_lookup_then_write upsertExampleRecord COMPOSITE_UNIQUE_KEYS
    oneMatchEnv _ 200 ⟨[3]⟩ rfl rfl

/-! ## C2 — a record with a missing composite-key field -/

theorem buildFilterParts_none_of_missing (ks : List String) (rec : Record)
    (h : ∃ k ∈ ks, rec.lookup k = none) :
    buildFilterParts ks rec = none := by
  induction ks with
  | nil =>
    obtain ⟨k, hk, -⟩ := h
    exact absurd hk (List.not_mem_nil k)
  | cons k0 ks ih =>
    obtain ⟨k, hk, hnone⟩ := h
    rcases List.mem_cons.mp hk with rfl | hk2
    · simp [buildFilterParts, hnone]
    · cases hh : rec.lookup k0 with
      | none => simp [buildFilterParts, hh]
      | some v => simp [buildFilterParts, hh, ih ⟨k, hk2, hnone⟩]

/-- A reshaped row with no SUBJECT_CODE value. -/
def missingKeyRow : LongRow :=
  [("REGN_NO", some (.vStr "AU21UG-002")), ("YEAR_FLAG", some (.vInt 1)),
   ("SUBJECT_NAME", some (.vStr "Maths"))]

/-- An environment whose outcomes are never consulted. -/
def unreachedEnv : UpsertEnv := ⟨.raised, .raised⟩

/-- C2 counterexample: a record lacking the SUBJECT_CODE key is never sent
to the store (no calls are issued), but the batch loop counts it in the
FAILURE tally (0 successes, 1 failure) — there is no separate skip count,
refuting the claim that such a record is counted neither as a failure nor
as a success. -/
theorem missing_key_counted_as_failure :
    processCourseLoop [(missingKeyRow, unreachedEnv)] = (0, 1)
    ∧ (update_or_create (prepareCourseRecord missingKeyRow)
        COMPOSITE_UNIQUE_KEYS unreachedEnv).calls = [] :=
  ⟨rfl, rfl⟩

/-- C2 amended: a record missing any declared composite-key field is never
sent to the store (the upsert returns False before issuing any call) and
the loop counts it as a failure — not a success — while the rest of the
batch continues unaffected. -/
theorem missing_key_skips_store_and_counts_failure (row : LongRow)
    (env : UpsertEnv) (rest : List (LongRow × UpsertEnv))
    (h : ∃ k ∈ COMPOSITE_UNIQUE_KEYS,
      (prepareCourseRecord row).lookup k = none) :
    update_or_create (prepareCourseRecord row) COMPOSITE_UNIQUE_KEYS env
      = ⟨false, []⟩
    ∧ processCourseLoop ((row, env) :: rest)
      = ((processCourseLoop rest).1, (processCourseLoop rest).2 + 1) := by
  have hb := buildFilterParts_none_of_missing _ _ h
  have h1 : update_or_create (prepareCourseRecord row) COMPOSITE_UNIQUE_KEYS env
      = ⟨false, []⟩ := by
    unfold update_or_create
    rw [hb]
  refine ⟨h1, ?_⟩
  show (if (update_or_create (prepareCourseRecord row)
      COMPOSITE_UNIQUE_KEYS env).success = true
    then ((processCourseLoop rest).1 + 1, (processCourseLoop rest).2)
    else ((processCourseLoop rest).1, (processCourseLoop rest).2 + 1)) = _
  rw [h1]
  simp

/-- C2 amended, witness at the concrete missing-key row. -/
theorem missing_key_skips_store_and_counts_failure_witness :
    update_or_create (prepareCourseRecord missingKeyRow)
        COMPOSITE_UNIQUE_KEYS unreachedEnv = ⟨false, []⟩
    ∧ processCourseLoop ((missingKeyRow, unreachedEnv) :: [])
      = ((processCourseLoop []).1, (processCourseLoop []).2 + 1) :=
  missing_key_skips_store_and_counts_failure missingKeyRow unreachedEnv []
    (by decide)

/-! ## C5 — error propagation in the two batch loops -/

/-- A student row with both key fields present. -/
def studentRowW : LongRow :=
  [("REGN_NO", some (.vStr "AU21UG-003")), ("YEAR_FLAG", some (.vInt 1))]

/-- A store whose lookup succeeds (no match) but whose write raises. -/
def writeRaisedEnv : UpsertEnv := ⟨.resp 200 (some ⟨[]⟩), .raised⟩

/-- C5 counterexample: in the student-details sync, an exception raised by
the PATCH/POST write of the first record propagates out of the batch loop,
leaving the remaining two records unprocessed — refuting the claim that a
store error never escapes the loop for that sync. -/
theorem student_write_error_aborts_loop :
    processStudentLoop
      [(studentRowW, writeRaisedEnv), (studentRowW, unreachedEnv),
       (studentRowW, unreachedEnv)]
      = .aborted 0 2 :=
  rfl

/-- C5 amended: in the course-details sync every record receives exactly
one success/failure verdict (the loop never aborts) and a raised lookup is
caught and counted as a failure; in the student-details sync a raised
lookup is caught (the function returns), but an exception raised by the
unguarded PATCH/POST write propagates, and a propagating upsert aborts the
batch loop with all later records unprocessed. -/
theorem sync_error_handling_amended :
    (∀ rows : List (LongRow × UpsertEnv),
      (processCourseLoop rows).1 + (processCourseLoop rows).2 = rows.length)
    ∧ (∀ (rec : Record) (env : UpsertEnv), env.getRes = .raised →
        (update_or_create rec COMPOSITE_UNIQUE_KEYS env).success = false)
    ∧ (∀ (rec : Record) (ks : List String) (env : UpsertEnv),
        env.getRes = .raised →
        ∃ cs, update_or_create_student rec ks env = .returned cs)
    ∧ (∀ (rec : Record) (ks : List String) (env : UpsertEnv)
        (parts : List String) (status : Nat) (body : Option GetBody),
        buildFilterPartsStudent ks rec = some parts →
        env.getRes = .resp status body →
        env.writeRes = .raised →
        ∃ cs, update_or_create_student rec ks env = .propagated cs)
    ∧ (∀ (row : LongRow) (env : UpsertEnv)
        (rest : List (LongRow × UpsertEnv)) (cs : List StoreCall),
        update_or_create_student (prepareStudentRecord row)
          STUDENT_UNIQUE_KEYS env = .propagated cs →
        processStudentLoop ((row, env) :: rest) = .aborted 0 rest.length) := by
  refine ⟨?_, ?_, ?_, ?_, ?_⟩
  · intro rows
    induction rows with
    | nil => rfl
    | cons p rest ih =>
      obtain ⟨row, env⟩ := p
      unfold processCourseLoop
      by_cases h : (update_or_create (prepareCourseRecord row)
          COMPOSITE_UNIQUE_KEYS env).success = true
      · simp only [h, if_true, List.length_cons]
        omega
      · simp only [Bool.not_eq_true] at h
        simp only [h, Bool.false_eq_true, if_false, List.length_cons]
        omega
  · intro rec env hg
    obtain ⟨g, w⟩ := env
    simp only at hg
    subst hg
    cases hb : buildFilterParts COMPOSITE_UNIQUE_KEYS rec <;>
      simp [update_or_create, hb]
  · intro rec ks env hg
    obtain ⟨g, w⟩ := env
    simp only at hg
    subst hg
    cases hb : buildFilterPartsStudent ks rec <;>
      simp [update_or_create_student, hb]
  · intro rec ks env parts status body hk hg hw
    obtain ⟨g, w⟩ := env
    simp only at hg hw
    subst hg
    subst hw
    simp [update_or_create_student, hk]
  · intro row env rest cs h
    unfold processStudentLoop
    rw [h]

/-- C5 amended, witness: instances of each conjunct at concrete inputs. -/
theorem sync_error_handling_amended_witness :
    (processCourseLoop [(studentRowW, unreachedEnv)]).1
        + (processCourseLoop [(studentRowW, unreachedEnv)]).2 = 1
    ∧ (update_or_create [] COMPOSITE_UNIQUE_KEYS unreachedEnv).success = false
    ∧ (∃ cs, update_or_create_student [] STUDENT_UNIQUE_KEYS unreachedEnv
        = .returned cs)
    ∧ (∃ cs, update_or_create_student (prepareStudentRecord studentRowW)
        STUDENT_UNIQUE_KEYS writeRaisedEnv = .propagated cs)
    ∧ processStudentLoop [(studentRowW, writeRaisedEnv),
        (studentRowW, unreachedEnv)] = .aborted 0 1 :=
  ⟨sync_error_handling_amended.1 [(studentRowW, unreachedEnv)],
   sync_error_handling_amended.2.1 [] unreachedEnv rfl,
   sync_error_handling_amended.2.2.1 [] STUDENT_UNIQUE_KEYS unreachedEnv rfl,
   sync_error_handling_amended.2.2.2.1
     (prepareStudentRecord studentRowW) STUDENT_UNIQUE_KEYS writeRaisedEnv
     ["`REGN_NO`,eq,AU21UG-003", "`YEAR_FLAG`,eq,1"] 200 (some ⟨[]⟩)
     rfl rfl rfl,
   sync_error_handling_amended.2.2.2.2 studentRowW writeRaisedEnv
     [(studentRowW, unreachedEnv)]
     [.get "`REGN_NO`,eq,AU21UG-003,AND,`YEAR_FLAG`,eq,1",
      .post [("REGN_NO", .vStr "AU21UG-003"), ("YEAR_FLAG", .vInt 1)]]
     rfl⟩

/-! ## C7 — string typing of the key fields -/

/-- A student row carrying a numeric SUBJECT_CODE column. -/
def studentNumericRow : LongRow :=
  [("REGN_NO", some (.vStr "AU21UG-007")), ("YEAR_FLAG", some (.vInt 0)),
   ("SUBJECT_CODE", some (.vInt 101))]

/-- A store whose lookup finds nothing and whose write succeeds. -/
def studentCreateEnv : UpsertEnv := ⟨.resp 200 (some ⟨[]⟩), .resp 200⟩

/-- C7 counterexample: the student-details sync coerces only REGN_NO; a
SUBJECT_CODE field that arrives as a number is POSTed to the store still
number-typed, refuting the claim for records upserted by that driver. -/
theorem student_subject_code_not_stringified :
    (prepareStudentRecord studentNumericRow).lookup "SUBJECT_CODE"
      = some (.vInt 101)
    ∧ update_or_create_student (prepareStudentRecord studentNumericRow)
        STUDENT_UNIQUE_KEYS studentCreateEnv
      = .returned [.get "`REGN_NO`,eq,AU21UG-007,AND,`YEAR_FLAG`,eq,0",
          .post [("REGN_NO", .vStr "AU21UG-007"), ("YEAR_FLAG", .vInt 0),
                 ("SUBJECT_CODE", .vInt 101)]] :=
  ⟨rfl, rfl⟩

/-- C7 amended: the course-details driver sends REGN_NO and SUBJECT_CODE
string-typed in every prepared record and coerces both to strings in the
equality filter; the student-details driver does the same for REGN_NO
only — a SUBJECT_CODE field in a student record passes through uncoerced. -/
theorem regn_no_string_typed_amended :
    (∀ (row : LongRow) (v : Value),
      (prepareCourseRecord row).lookup "REGN_NO" = some v → ∃ s, v = .vStr s)
    ∧ (∀ (row : LongRow) (v : Value),
      (prepareCourseRecord row).lookup "SUBJECT_CODE" = some v →
        ∃ s, v = .vStr s)
    ∧ (∀ (row : LongRow) (v : Value),
      (prepareStudentRecord row).lookup "REGN_NO" = some v → ∃ s, v = .vStr s)
    ∧ (∀ v, coerceKey "REGN_NO" v = .vStr (pyStr v))
    ∧ (∀ v, coerceKey "SUBJECT_CODE" v = .vStr (pyStr v))
    ∧ (∀ v, coerceKeyStudent "REGN_NO" v = .vStr (pyStr v)) := by
  refine ⟨?_, ?_, ?_, ?_, ?_, ?_⟩
  · intro row v h
    unfold prepareCourseRecord at h
    rw [lookup_intifyField_ne _ _ _ (by decide)] at h
    rw [lookup_stringifyField_ne _ _ _ (by decide)] at h
    rw [lookup_stringifyField_self] at h
    cases hh : (dropnaRow row).lookup "REGN_NO" with
    | none => rw [hh] at h; cases h
    | some u =>
      rw [hh] at h
      exact ⟨pyStr u, (Option.some.inj h).symm⟩
  · intro row v h
    unfold prepareCourseRecord at h
    rw [lookup_intifyField_ne _ _ _ (by decide)] at h
    rw [lookup_stringifyField_self] at h
    cases hh : (stringifyField (dropnaRow row) "REGN_NO").lookup "SUBJECT_CODE" with
    | none => rw [hh] at h; cases h
    | some u =>
      rw [hh] at h
      exact ⟨pyStr u, (Option.some.inj h).symm⟩
  · intro row v h
    unfold prepareStudentRecord at h
    rw [lookup_intifyField_ne _ _ _ (by decide)] at h
    rw [lookup_stringifyField_self] at h
    cases hh : (dropnaRow row).lookup "REGN_NO" with
    | none => rw [hh] at h; cases h
    | some u =>
      rw [hh] at h
      exact ⟨pyStr u, (Option.some.inj h).symm⟩
  · intro v
    simp [coerceKey]
  · intro v
    simp [coerceKey]
  · intro v
    simp [coerceKeyStudent]

/-- C7 amended, witness: a numeric REGN_NO arrives at the course driver and
leaves as the string it renders to; the filter coercions at a concrete int. -/
theorem regn_no_string_typed_amended_witness :
    (∃ s, Value.vStr "42" = Value.vStr s)
    ∧ coerceKey "REGN_NO" (.vInt 7) = .vStr (pyStr (.vInt 7))
    ∧ coerceKeyStudent "REGN_NO" (.vInt 7) = .vStr (pyStr (.vInt 7)) :=
  ⟨regn_no_string_typed_amended.1 [("REGN_NO", some (.vInt 42))]
      (.vStr "42") rfl,
   regn_no_string_typed_amended.2.2.2.1 (.vInt 7),
   regn_no_string_typed_amended.2.2.2.2.2 (.vInt 7)⟩

/-! ## C3 — the concrete reshape example -/

/-- The wide CSV row of the specification example. -/
def courseExampleTable : Table :=
  { cols := ["REGN_NO", "SUB1", "SUB1NM", "SUB1_TOT", "SUB1_GRADE",
             "SUB2", "SUB2NM", "SUB2_TOT", "SUB2_GRADE"],
    rows := [[some (.vStr "AU21UG-001"), some (.vInt 101), some (.vStr "Maths"),
              some (.vInt 88), some (.vStr "A"), some (.vInt 102),
              some (.vStr "Physics"), some (.vInt 75), some (.vStr "B")]] }

/-- The first row the reshaper produces for the example (subject slot 1). -/
def courseMathsRow : LongRow :=
  [("REGN_NO", some (.vStr "AU21UG-001")),
   ("SUBJECT_NAME", some (.vStr "Maths")),
   ("TH_MRKS", none), ("CE_MRKS", none),
   ("Marks", some (.vInt 88)),
   ("Grade", some (.vStr "A")),
   ("GRADE_POINTS", none), ("CREDIT", none), ("CREDIT_POINTS", none),
   ("TYPE", none), ("RESULT", none),
   ("SUBJECT_CODE", some (.vInt 101)),
   ("Month_Year_Completion", none), ("Academic_Year", none),
   ("Academic_Month", none)]

/-- The second row the reshaper produces for the example (subject slot 2). -/
def coursePhysicsRow : LongRow :=
  [("REGN_NO", some (.vStr "AU21UG-001")),
   ("SUBJECT_NAME", some (.vStr "Physics")),
   ("TH_MRKS", none), ("CE_MRKS", none),
   ("Marks", some (.vInt 75)),
   ("Grade", some (.vStr "B")),
   ("GRADE_POINTS", none), ("CREDIT", none), ("CREDIT_POINTS", none),
   ("TYPE", none), ("RESULT", none),
   ("SUBJECT_CODE", some (.vInt 102)),
   ("Month_Year_Completion", none), ("Academic_Year", none),
   ("Academic_Month", none)]

/-- C3: the wide CSV row with REGN_NO=AU21UG-001, SUB1=101, SUB1NM=Maths,
SUB1_TOT=88, SUB1_GRADE=A, SUB2=102, SUB2NM=Physics, SUB2_TOT=75,
SUB2_GRADE=B reshapes to exactly two output rows, both carrying
REGN_NO=AU21UG-001, one with SUBJECT_CODE=101, SUBJECT_NAME=Maths,
Marks=88, Grade=A and the other with SUBJECT_CODE=102,
SUBJECT_NAME=Physics, Marks=75, Grade=B. -/
theorem reshape_example_two_rows :
    reshapeCleaned courseExampleTable = some [courseMathsRow, coursePhysicsRow]
    ∧ rowField courseMathsRow "REGN_NO" = some (.vStr "AU21UG-001")
    ∧ rowField courseMathsRow "SUBJECT_CODE" = some (.vInt 101)
    ∧ rowField courseMathsRow "SUBJECT_NAME" = some (.vStr "Maths")
    ∧ rowField courseMathsRow "Marks" = some (.vInt 88)
    ∧ rowField courseMathsRow "Grade" = some (.vStr "A")
    ∧ rowField coursePhysicsRow "REGN_NO" = some (.vStr "AU21UG-001")
    ∧ rowField coursePhysicsRow "SUBJECT_CODE" = some (.vInt 102)
    ∧ rowField coursePhysicsRow "SUBJECT_NAME" = some (.vStr "Physics")
    ∧ rowField coursePhysicsRow "Marks" = some (.vInt 75)
    ∧ rowField coursePhysicsRow "Grade" = some (.vStr "B") := by
  refine ⟨?_, rfl, rfl, rfl, rfl, rfl, rfl, rfl, rfl, rfl, rfl⟩
  rfl

/-! ## C6 — the transcript fetch call does not bind -/

/-- C6 (code bug): the Transcript Generator page passes the keyword
arguments `year_of_completion` and `academic_course_id` (app.py lines
880-885), but `fetch_all_students_details` declares only `conn` and
`specific_regn_no` (generate_transcript.py line 33), so the call raises
`TypeError` instead of fetching students filtered by those parameters. -/
theorem transcript_fetch_call_does_not_bind :
    acceptsKwargs fetch_all_students_details_params transcript_page_call_kwargs
      = false
    ∧ fetch_all_students_details_params.contains "year_of_completion" = false
    ∧ fetch_all_students_details_params.contains "academic_course_id" = false
    ∧ transcript_page_call_kwargs.contains "year_of_completion" = true
    ∧ transcript_page_call_kwargs.contains "academic_course_id" = true := by
  decide

/-! ## C8 — the transcript double-column split -/

/-- A seven-course list, as in the specification example. -/
def sevenCourses : List Record :=
  [[("course_code", .vInt 1)], [("course_code", .vInt 2)],
   [("course_code", .vInt 3)], [("course_code", .vInt 4)],
   [("course_code", .vInt 5)], [("course_code", .vInt 6)],
   [("course_code", .vInt 7)]]

/-- C8 counterexample: with 7 course rows the split produces a left column
of 4 and a right column of 3 — the left column receives the strictly
larger half, refuting the claim that the left column gets the smaller or
equal half when the count is odd. -/
theorem double_column_left_gets_larger_half :
    (prepare_double_column_courses sevenCourses).1.length = 4
    ∧ (prepare_double_column_courses sevenCourses).2.length = 3
    ∧ ¬ ((prepare_double_column_courses sevenCourses).1.length
          ≤ (prepare_double_column_courses sevenCourses).2.length) := by
  refine ⟨rfl, rfl, ?_⟩
  decide

theorem numberCourses_length (courses : List Record) :
    (numberCourses courses).length = courses.length := by
  simp [numberCourses]

/-- C8 amended: the two columns concatenate back to the course list (with
serial numbers assigned in place), their lengths differ by at most one,
and when the count is odd the LEFT column gets the larger half:
left = ceil(n / 2), right = floor(n / 2). -/
theorem double_column_split_amended (courses : List Record) :
    (prepare_double_column_courses courses).1
        ++ (prepare_double_column_courses courses).2 = numberCourses courses
    ∧ (prepare_double_column_courses courses).1.length = (courses.length + 1) / 2
    ∧ (prepare_double_column_courses courses).2.length = courses.length / 2
    ∧ (prepare_double_column_courses courses).1.length
        ≤ (prepare_double_column_courses courses).2.length + 1
    ∧ (prepare_double_column_courses courses).2.length
        ≤ (prepare_double_column_courses courses).1.length
    ∧ (courses.length % 2 = 1 →
        (prepare_double_column_courses courses).1.length
          = (prepare_double_column_courses courses).2.length + 1) := by
  have hn : (numberCourses courses).length = courses.length :=
    numberCourses_length courses
  have hsplit : ((numberCourses courses).length + 1) / 2
      ≤ (numberCourses courses).length ∨ (numberCourses courses).length = 0 := by
    omega
  refine ⟨List.take_append_drop _ _, ?_, ?_, ?_, ?_, ?_⟩ <;>
    simp only [prepare_double_column_courses, List.length_take,
      List.length_drop, hn] <;> omega

/-- C8 amended, witness: at the seven-course example the concatenation and
the odd-count left-gets-larger-half conclusion hold. -/
theorem double_column_split_amended_witness :
    (prepare_double_column_courses sevenCourses).1
        ++ (prepare_double_column_courses sevenCourses).2
      = numberCourses sevenCourses
    ∧ (prepare_double_column_courses sevenCourses).1.length
        = (prepare_double_column_courses sevenCourses).2.length + 1 :=
  ⟨(double_column_split_amended sevenCourses).1,
   (double_column_split_amended sevenCourses).2.2.2.2.2 (by decide)⟩

/-! ## C9 — missing batch vs empty batch -/

/-- C9: the archive download distinguishes a missing batch from an empty
batch: with no batch folder it returns `(no data, "", 0)`, while a batch
folder whose listing is empty returns `(no data, batch id, 0)` — two
distinct results (the batch id of an existing folder is nonempty). -/
theorem download_batch_missing_vs_empty (fs : List (String × Option String))
    (ts : String) (h : ts.isEmpty = false) :
    download_batch_as_zip ⟨none, fs⟩ none = (none, "", 0)
    ∧ download_batch_as_zip ⟨some ts, []⟩ none = (none, ts, 0)
    ∧ download_batch_as_zip ⟨none, fs⟩ none
        ≠ download_batch_as_zip ⟨some ts, []⟩ none := by
  have hne : ts ≠ "" := by
    intro hcon
    rw [hcon] at h
    exact absurd h (by decide)
  refine ⟨rfl, ?_, ?_⟩
  · simp [download_batch_as_zip, h]
  · simp [download_batch_as_zip, h]
    intro hcon
    exact hne hcon.symm

/-- C9 witness at a concrete timestamp. -/
theorem download_batch_missing_vs_empty_witness :
    download_batch_as_zip ⟨none, [("gradecards/x/a.pdf", some "PDF")]⟩ none
      = (none, "", 0)
    ∧ download_batch_as_zip ⟨some "20250101_120000", []⟩ none
      = (none, "20250101_120000", 0)
    ∧ download_batch_as_zip ⟨none, [("gradecards/x/a.pdf", some "PDF")]⟩ none
      ≠ download_batch_as_zip ⟨some "20250101_120000", []⟩ none :=
  download_batch_missing_vs_empty [("gradecards/x/a.pdf", some "PDF")]
    "20250101_120000" rfl

/-! ## C10 — reported count vs archive entries -/

/-- C10: assembling a batch archive, a listed object whose content
retrieval returns no data is silently omitted from the ZIP, while the
returned file count is the number of listed objects; the number of archive
entries equals the number of objects with retrievable content and can
therefore fall short of the reported count. -/
theorem zip_count_vs_entries (ts : String)
    (files : List (String × Option String))
    (hts : ts.isEmpty = false) (hf : files ≠ []) :
    download_batch_as_zip ⟨some ts, files⟩ none
      = (some (zipEntries files), ts, files.length)
    ∧ (zipEntries files).length = files.countP (fun f => f.2.isSome)
    ∧ (zipEntries files).length ≤ files.length := by
  refine ⟨?_, ?_, ?_⟩
  · have hfe : files.isEmpty = false := by
      cases files with
      | nil => exact absurd rfl hf
      | cons a l => rfl
    simp [download_batch_as_zip, hts, hfe]
  · have := length_filterMap_eq_countP
      (fun f : String × Option String =>
        f.2.map (fun content => (keyBasename f.1, content))) files
    simpa [zipEntries] using this
  · calc (zipEntries files).length
        = files.countP (fun f => f.2.isSome) := by
          simpa [zipEntries] using length_filterMap_eq_countP
            (fun f : String × Option String =>
              f.2.map (fun content => (keyBasename f.1, content))) files
      _ ≤ files.length := List.countP_le_length _

/-- Batch listing with one retrievable and one unretrievable object. -/
def twoFilesOneMissing : List (String × Option String) :=
  [("transcripts/20250101_120000/a.pdf", some "PDFA"),
   ("transcripts/20250101_120000/b.pdf", none)]

/-- C10 witness: with two listed objects of which one has no retrievable
content, the reported count is 2 while the archive holds 1 entry. -/
theorem zip_count_vs_entries_witness :
    download_batch_as_zip ⟨some "20250101_120000", twoFilesOneMissing⟩ none
      = (some (zipEntries twoFilesOneMissing), "20250101_120000",
         twoFilesOneMissing.length)
    ∧ (zipEntries twoFilesOneMissing).length
        = twoFilesOneMissing.countP (fun f => f.2.isSome)
    ∧ (zipEntries twoFilesOneMissing).length ≤ twoFilesOneMissing.length :=
  zip_count_vs_entries "20250101_120000" twoFilesOneMissing rfl (by decide)

/-! ## C4 — one output row per slot that carries data -/

/-- Whether subject slot `s` of row `r` carries data: the renamed columns
SUBJECT_NAME_s (from SUBsNM) or SUBJECT_ACTUAL_CODE_s (from SUBs) hold a
non-null value. -/
def slotHasData (t : Table) (r : List Cell) (s : String) : Bool :=
  (lookupCell (finalCols t) r ("SUBJECT_NAME_" ++ s)).isSome
    || (lookupCell (finalCols t) r ("SUBJECT_ACTUAL_CODE_" ++ s)).isSome

/-- A decimal-suffix string in canonical form (no leading zero unless the
suffix is exactly "0"); on such suffixes the string-keyed pivot of this
embedding agrees with the int-parsed suffixes of `pd.wide_to_long`. -/
def canonicalSuffix (d : String) : Bool :=
  match d.data with
  | '0' :: _ :: _ => false
  | _ => true

theorem lookup_map_keys_none {α β : Type} (l : List α) (f : α → String)
    (g : α → β) (k : String) (h : ∀ a ∈ l, f a ≠ k) :
    (l.map (fun a => (f a, g a))).lookup k = none := by
  induction l with
  | nil => rfl
  | cons a l ih =>
    have hb : (k == f a) = false := by
      simp only [beq_eq_false_iff_ne, ne_eq]
      exact fun hEq => h a (List.mem_cons_self a l) hEq.symm
    simp only [List.map_cons, List.lookup, hb]
    exact ih (fun x hx => h x (List.mem_cons_of_mem a hx))

theorem lookup_append_of_none {β : Type} (l1 l2 : List (String × β))
    (k : String) (h : l1.lookup k = none) :
    (l1 ++ l2).lookup k = l2.lookup k := by
  induction l1 with
  | nil => rfl
  | cons p l ih =>
    obtain ⟨k0, v0⟩ := p
    cases hb : (k == k0) with
    | true => simp [List.lookup, hb] at h
    | false =>
      simp only [List.lookup, hb] at h
      simp only [List.cons_append, List.lookup, hb]
      exact ih h

/-- The reverse temporary rename leaves every name that does not end in
`_GLOBAL` unchanged, whatever the identifier list was. -/
theorem unGlobal_fixed (idv : List String) (c : String)
    (h : ¬ ("_GLOBAL".data <:+ c.data)) : unGlobal idv c = c := by
  unfold unGlobal
  have hnone : idv.find?
      (fun x => stubnames.contains x && (c == x ++ "_GLOBAL")) = none := by
    rw [List.find?_eq_none]
    intro x _
    simp only [Bool.and_eq_true, beq_iff_eq, not_and]
    intro _ hc
    exact absurd ⟨x.data, by rw [hc, String.data_append]⟩ h
  rw [hnone]

theorem finalizeName_fixed (t : Table) (c c' : String)
    (h1 : renamePost c = c') (h2 : ¬ ("_GLOBAL".data <:+ c'.data)) :
    finalizeName t c = c' := by
  unfold finalizeName
  rw [h1, unGlobal_fixed _ _ h2]

/-- After the business renames and the reversal of the temporary rename,
the stub block of a pivoted row reads SUBJECT_NAME at the SUBJECT_NAME_s
cell and SUBJECT_CODE at the SUBJECT_ACTUAL_CODE_s cell. -/
theorem lookup_stub_block (t : Table) (r : List Cell) (s : String) :
    ((stubnames.map (fun st =>
        (st, lookupCell (finalCols t) r (st ++ "_" ++ s)))).map
          (fun p => (finalizeName t p.1, p.2))).lookup "SUBJECT_NAME"
      = some (lookupCell (finalCols t) r ("SUBJECT_NAME_" ++ s))
    ∧ ((stubnames.map (fun st =>
        (st, lookupCell (finalCols t) r (st ++ "_" ++ s)))).map
          (fun p => (finalizeName t p.1, p.2))).lookup "SUBJECT_CODE"
      = some (lookupCell (finalCols t) r ("SUBJECT_ACTUAL_CODE_" ++ s)) := by
  simp only [stubnames, List.map_cons, List.map_nil]
  rw [finalizeName_fixed t "SUBJECT_NAME" "SUBJECT_NAME" (by decide) (by decide),
    finalizeName_fixed t "TH_MRKS" "TH_MRKS" (by decide) (by decide),
    finalizeName_fixed t "CE_MRKS" "CE_MRKS" (by decide) (by decide),
    finalizeName_fixed t "TOT" "Marks" (by decide) (by decide),
    finalizeName_fixed t "GRADE" "Grade" (by decide) (by decide),
    finalizeName_fixed t "GRADE_POINTS" "GRADE_POINTS" (by decide) (by decide),
    finalizeName_fixed t "CREDIT" "CREDIT" (by decide) (by decide),
    finalizeName_fixed t "CREDIT_POINTS" "CREDIT_POINTS" (by decide) (by decide),
    finalizeName_fixed t "TYPE" "TYPE" (by decide) (by decide),
    finalizeName_fixed t "RESULT" "RESULT" (by decide) (by decide),
    finalizeName_fixed t "SUBJECT_ACTUAL_CODE" "SUBJECT_CODE" (by decide) (by decide),
    finalizeName_fixed t "MONTH_YEAR_COMPLETION" "Month_Year_Completion"
      (by decide) (by decide),
    finalizeName_fixed t "YEAR_COMPLETION" "Academic_Year" (by decide) (by decide),
    finalizeName_fixed t "MONTH_COMPLETION_IN_NUMBER" "Academic_Month"
      (by decide) (by decide)]
  constructor
  · simp [List.lookup]
  · simp [List.lookup]

/-- Under the no-shadowing hypothesis on identifier and passthrough
columns, the dropna clean-up predicate of a pivoted row coincides with the
slot-carries-data predicate on the wide row. -/
theorem keepRow_finalized (t : Table) (r : List Cell) (s : String)
    (hclean : ((idVarsF t ++ passthroughCols t).all
      (fun c => (finalizeName t c != "SUBJECT_NAME")
        && (finalizeName t c != "SUBJECT_CODE"))) = true) :
    keepRow ((mkLongRow t r s).map (fun p => (finalizeName t p.1, p.2)))
      = slotHasData t r s := by
  have hmem := List.all_eq_true.mp hclean
  have hpre : ∀ key : String, key = "SUBJECT_NAME" ∨ key = "SUBJECT_CODE" →
      (((idVarsF t ++ passthroughCols t).map
        (fun c => (finalizeName t c, lookupCell (finalCols t) r c))).lookup key)
        = none := by
    intro key hkey
    apply lookup_map_keys_none
    intro c hc
    have h2 := hmem c hc
    simp only [Bool.and_eq_true, bne_iff_ne, ne_eq] at h2
    rcases hkey with rfl | rfl
    · exact h2.1
    · exact h2.2
  have hrow : (mkLongRow t r s).map (fun p => (finalizeName t p.1, p.2))
      = ((idVarsF t ++ passthroughCols t).map
          (fun c => (finalizeName t c, lookupCell (finalCols t) r c)))
        ++ ((stubnames.map (fun st =>
            (st, lookupCell (finalCols t) r (st ++ "_" ++ s)))).map
              (fun p => (finalizeName t p.1, p.2))) := by
    unfold mkLongRow
    rw [List.map_append, List.map_append, List.map_map, List.map_map,
      ← List.map_append]
    rfl
  unfold keepRow rowField
  rw [hrow]
  rw [lookup_append_of_none _ _ _ (hpre "SUBJECT_NAME" (Or.inl rfl)),
    lookup_append_of_none _ _ _ (hpre "SUBJECT_CODE" (Or.inr rfl)),
    (lookup_stub_block t r s).1, (lookup_stub_block t r s).2]
  rfl

/-- C4: whenever the reshape succeeds, the cleaned output holds exactly one
row per (input row, detected subject slot) pair in which the slot carries a
non-null subject name or subject code, and no row for fully blank slots —
the output length is the sum over input rows of the number of
data-carrying slots.  Hypotheses: no identifier or passthrough column
shadows the SUBJECT_NAME/SUBJECT_CODE fields, and the slot suffixes are in
canonical decimal form (where the string-suffix pivot of this embedding
agrees with pandas). -/
theorem reshape_one_row_per_slot_with_data (t : Table) (out : List LongRow)
    (hres : reshapeCleaned t = some out)
    (hclean : ((idVarsF t ++ passthroughCols t).all
      (fun c => (finalizeName t c != "SUBJECT_NAME")
        && (finalizeName t c != "SUBJECT_CODE"))) = true)
    (_hcanon : ((tableSuffixes t).all canonicalSuffix) = true) :
    out.length
      = (t.rows.map (fun r =>
          (tableSuffixes t).countP (slotHasData t r))).sum := by
  have hout : out = cleanedLongRows t := by
    unfold reshapeCleaned at hres
    repeat' split at hres
    any_goals exact Option.noConfusion hres
    exact (Option.some.inj hres).symm
  subst hout
  have key : ∀ rows : List (List Cell),
      ((rows.flatMap (fun r => (tableSuffixes t).map (fun s =>
          (mkLongRow t r s).map (fun p => (finalizeName t p.1, p.2))))).filter
        keepRow).length
      = (rows.map (fun r =>
          (tableSuffixes t).countP (slotHasData t r))).sum := by
    intro rows
    induction rows with
    | nil => rfl
    | cons r rows ih =>
      rw [List.flatMap_cons, List.filter_append, List.length_append, ih,
        List.map_cons, List.sum_cons]
      congr 1
      rw [length_filter_map_eq_countP]
      exact List.countP_congr (fun s _ => by rw [keepRow_finalized t r s hclean])
  exact key t.rows

/-- A minimal wide table: one identifier column, one subject-name column. -/
def w4Table : Table :=
  { cols := ["REGN_NO", "SUB1NM"],
    rows := [[some (.vStr "R1"), some (.vStr "Intro")]] }

/-- C4 witness at the minimal table: one data-carrying slot, one output
row. -/
theorem reshape_one_row_per_slot_with_data_witness :
    ((reshapeCleaned w4Table).getD []).length
      = (w4Table.rows.map (fun r =>
          (tableSuffixes w4Table).countP (slotHasData w4Table r))).sum :=
  reshape_one_row_per_slot_with_data w4Table
    ((reshapeCleaned w4Table).getD []) rfl (by decide) (by decide)

end AuTranscripts
